import Mathlib

/-!
Verification of the SEIR Euler integrator in `seir.py`.

The source defines two functions, `base_seir_model` and
`social_distancing_seir_model`.  Each unpacks the initial values into four
compartments (S, E, I, R), reads its rate parameters from a tuple, computes
`dt = t[1] - t[0]`, and then, once per element of `t[1:]`, appends the
forward-Euler update of the last state to four running lists, finally
stacking them into a row-per-time-point trajectory.

We embed the arithmetic over ℚ (the spec's conservation claim is about exact
arithmetic).  Reading `t[1] - t[0]` on a grid with fewer than two points
raises an index error in the source, so the embedded functions return
`Option`: `none` models the exception, `some traj` a returned trajectory.
-/

/-- One row of the trajectory: the four compartment values `(S, E, I, R)`. -/
structure SEIRState where
  S : ℚ
  E : ℚ
  I : ℚ
  R : ℚ
  deriving Repr, DecidableEq

/-- The loop body of `base_seir_model` (lines 50-53 of `seir.py`):
`next_S = S[-1] - (beta*S[-1]*I[-1])*dt`, etc. -/
def base_step (alpha beta gamma dt : ℚ) (p : SEIRState) : SEIRState where
  S := p.S - (beta * p.S * p.I) * dt
  E := p.E + (beta * p.S * p.I - alpha * p.E) * dt
  I := p.I + (alpha * p.E - gamma * p.I) * dt
  R := p.R + (gamma * p.I) * dt

/-- The loop body of `social_distancing_seir_model` (lines 84-87 of
`seir.py`): `next_S = S[-1] - (rho*beta*S[-1]*I[-1])*dt`, etc. -/
def sd_step (alpha beta gamma rho dt : ℚ) (p : SEIRState) : SEIRState where
  S := p.S - (rho * beta * p.S * p.I) * dt
  E := p.E + (rho * beta * p.S * p.I - alpha * p.E) * dt
  I := p.I + (alpha * p.E - gamma * p.I) * dt
  R := p.R + (gamma * p.I) * dt

/-- The accumulation loop shared by both source functions: starting from the
singleton lists holding the initial state, each of the `n` iterations appends
`step` of the last state.  `euler_loop step s n` is the resulting trajectory,
of length `n + 1`. -/
def euler_loop (step : SEIRState → SEIRState) : SEIRState → Nat → List SEIRState
  | s, 0 => [s]
  | s, n + 1 => s :: euler_loop step (step s) n

/-- `base_seir_model(init_vals, params, t)` from `seir.py`.  `params` is the
triple `(alpha, beta, gamma)`; `dt = t[1] - t[0]`; the loop runs once per
element of `t[1:]`.  A grid with fewer than two points makes `t[1] - t[0]`
raise, modelled as `none`. -/
def base_seir_model (init_vals : SEIRState) (params : ℚ × ℚ × ℚ) (t : List ℚ) :
    Option (List SEIRState) :=
  match t with
  | t0 :: t1 :: rest =>
      match params with
      | (alpha, beta, gamma) =>
          some (euler_loop (base_step alpha beta gamma (t1 - t0)) init_vals
            (rest.length + 1))
  | _ => none

/-- `social_distancing_seir_model(init_vals, params, t)` from `seir.py`.
`params` is the quadruple `(alpha, beta, gamma, rho)`. -/
def social_distancing_seir_model (init_vals : SEIRState)
    (params : ℚ × ℚ × ℚ × ℚ) (t : List ℚ) : Option (List SEIRState) :=
  match t with
  | t0 :: t1 :: rest =>
      match params with
      | (alpha, beta, gamma, rho) =>
          some (euler_loop (sd_step alpha beta gamma rho (t1 - t0)) init_vals
            (rest.length + 1))
  | _ => none

/-- The Euler recurrence exactly as the spec states it, with the
force-of-infection term `T` supplied by the transmission strategy:
`S' = S - T*dt`, `E' = E + (T - alpha*E)*dt`, `I' = I + (alpha*E - gamma*I)*dt`,
`R' = R + gamma*I*dt`. -/
def spec_step (alpha gamma T dt : ℚ) (p : SEIRState) : SEIRState where
  S := p.S - T * dt
  E := p.E + (T - alpha * p.E) * dt
  I := p.I + (alpha * p.E - gamma * p.I) * dt
  R := p.R + gamma * p.I * dt

/-- The conserved quantity `S + E + I + R` of a state. -/
def total (p : SEIRState) : ℚ := p.S + p.E + p.I + p.R

theorem euler_loop_length (step : SEIRState → SEIRState) (s : SEIRState)
    (n : Nat) : (euler_loop step s n).length = n + 1 := by
  induction n generalizing s with
  | zero => rfl
  | succ n ih => simp [euler_loop, ih]

theorem euler_loop_get (step : SEIRState → SEIRState) (s : SEIRState)
    (n i : Nat) (h : i < (euler_loop step s n).length) :
    (euler_loop step s n).get ⟨i, h⟩ = step^[i] s := by
  induction n generalizing s i with
  | zero =>
    have hi : i = 0 := by
      have hl : (euler_loop step s 0).length = 1 := rfl
      omega
    subst hi
    rfl
  | succ n ih =>
    cases i with
    | zero => rfl
    | succ i =>
      have h' : i < (euler_loop step (step s) n).length := by
        have hl := euler_loop_length step (step s) n
        have hl' := euler_loop_length step s (n + 1)
        omega
      have hih := ih (step s) i h'
      calc (euler_loop step s (n + 1)).get ⟨i + 1, h⟩
          = (euler_loop step (step s) n).get ⟨i, h'⟩ := rfl
        _ = step^[i] (step s) := hih
        _ = step^[i + 1] s := (Function.iterate_succ_apply step i s).symm

theorem euler_loop_get_succ (step : SEIRState → SEIRState) (s : SEIRState)
    (n i : Nat) (h : i + 1 < (euler_loop step s n).length)
    (h' : i < (euler_loop step s n).length) :
    (euler_loop step s n).get ⟨i + 1, h⟩ =
      step ((euler_loop step s n).get ⟨i, h'⟩) := by
  rw [euler_loop_get, euler_loop_get, Function.iterate_succ_apply']

theorem euler_loop_get_zero (step : SEIRState → SEIRState) (s : SEIRState)
    (n : Nat) (h : 0 < (euler_loop step s n).length) :
    (euler_loop step s n).get ⟨0, h⟩ = s := by
  rw [euler_loop_get]
  rfl

theorem total_base_step (alpha beta gamma dt : ℚ) (p : SEIRState) :
    total (base_step alpha beta gamma dt p) = total p := by
  simp only [total, base_step]
  ring

theorem total_sd_step (alpha beta gamma rho dt : ℚ) (p : SEIRState) :
    total (sd_step alpha beta gamma rho dt p) = total p := by
  simp only [total, sd_step]
  ring

theorem total_iterate (step : SEIRState → SEIRState)
    (hstep : ∀ p, total (step p) = total p) (s : SEIRState) (i : Nat) :
    total (step^[i] s) = total s := by
  induction i with
  | zero => rfl
  | succ i ih => rw [Function.iterate_succ_apply', hstep, ih]

theorem iterate_S_const (step : SEIRState → SEIRState)
    (hS : ∀ p, (step p).S = p.S) (s : SEIRState) (i : Nat) :
    (step^[i] s).S = s.S := by
  induction i with
  | zero => rfl
  | succ i ih => rw [Function.iterate_succ_apply', hS, ih]

theorem base_step_spec (alpha beta gamma dt : ℚ) (p : SEIRState) :
    base_step alpha beta gamma dt p =
      spec_step alpha gamma (beta * p.S * p.I) dt p := rfl

theorem sd_step_spec (alpha beta gamma rho dt : ℚ) (p : SEIRState) :
    sd_step alpha beta gamma rho dt p =
      spec_step alpha gamma (rho * beta * p.S * p.I) dt p := rfl

theorem sd_step_one (alpha beta gamma dt : ℚ) :
    sd_step alpha beta gamma 1 dt = base_step alpha beta gamma dt := by
  funext p
  simp only [sd_step, base_step, SEIRState.mk.injEq, one_mul]

theorem sd_step_scaled (alpha beta gamma rho dt : ℚ) :
    sd_step alpha beta gamma rho dt = base_step alpha (rho * beta) gamma dt :=
  rfl

/-- Claim C1: for every initial state, parameters, transmission strategy
(Base or SocialDistancing(rho)) and time grid of length at least 2, each
trajectory element of index `i + 1` is the Euler recurrence
`spec_step` applied to element `i`, with transmission term
`beta*S*I` (Base) or `rho*beta*S*I` (SocialDistancing) and
`dt = t[1] - t[0]`. -/
theorem claim_C1 (init : SEIRState) (alpha beta gamma rho t0 t1 : ℚ)
    (rest : List ℚ) :
    (∀ traj, base_seir_model init (alpha, beta, gamma) (t0 :: t1 :: rest) =
        some traj →
      ∀ i, (h : i + 1 < traj.length) → (h' : i < traj.length) →
        traj.get ⟨i + 1, h⟩ =
          spec_step alpha gamma
            (beta * (traj.get ⟨i, h'⟩).S * (traj.get ⟨i, h'⟩).I) (t1 - t0)
            (traj.get ⟨i, h'⟩))
    ∧ (∀ traj, social_distancing_seir_model init (alpha, beta, gamma, rho)
        (t0 :: t1 :: rest) = some traj →
      ∀ i, (h : i + 1 < traj.length) → (h' : i < traj.length) →
        traj.get ⟨i + 1, h⟩ =
          spec_step alpha gamma
            (rho * beta * (traj.get ⟨i, h'⟩).S * (traj.get ⟨i, h'⟩).I)
            (t1 - t0) (traj.get ⟨i, h'⟩)) := by
  constructor
  · intro traj htraj i h h'
    have heq : euler_loop (base_step alpha beta gamma (t1 - t0)) init
        (rest.length + 1) = traj := by
      simpa [base_seir_model] using htraj
    subst heq
    exact (euler_loop_get_succ _ _ _ _ h h').trans
      (base_step_spec alpha beta gamma (t1 - t0) _)
  · intro traj htraj i h h'
    have heq : euler_loop (sd_step alpha beta gamma rho (t1 - t0)) init
        (rest.length + 1) = traj := by
      simpa [social_distancing_seir_model] using htraj
    subst heq
    exact (euler_loop_get_succ _ _ _ _ h h').trans
      (sd_step_spec alpha beta gamma rho (t1 - t0) _)

theorem claim_C1_witness :
    ([⟨1, 0, 1, 0⟩, ⟨0, 1, 1, 0⟩] : List SEIRState).get ⟨1, by decide⟩ =
      spec_step 0 0 (1 * (1 : ℚ) * 1) (1 - 0) ⟨1, 0, 1, 0⟩ :=
  (claim_C1 ⟨1, 0, 1, 0⟩ 0 1 0 1 0 1 []).1 [⟨1, 0, 1, 0⟩, ⟨0, 1, 1, 0⟩]
    (by simp [base_seir_model, euler_loop, base_step]) 0 (by decide) (by decide)

/-- Claim C2: for both policy variants, for every initial state, parameters
and index `i` into the produced trajectory, the sum `S + E + I + R` at
index `i` equals the sum at index 0: the four per-step rate terms cancel
exactly in exact arithmetic. -/
theorem claim_C2 (init : SEIRState) (alpha beta gamma rho : ℚ) (t : List ℚ) :
    (∀ traj, base_seir_model init (alpha, beta, gamma) t = some traj →
      ∀ i, (h : i < traj.length) → (h0 : 0 < traj.length) →
        total (traj.get ⟨i, h⟩) = total (traj.get ⟨0, h0⟩))
    ∧ (∀ traj, social_distancing_seir_model init (alpha, beta, gamma, rho) t =
        some traj →
      ∀ i, (h : i < traj.length) → (h0 : 0 < traj.length) →
        total (traj.get ⟨i, h⟩) = total (traj.get ⟨0, h0⟩)) := by
  constructor
  · intro traj htraj i h h0
    match t, htraj with
    | t0 :: t1 :: rest, htraj =>
      have heq : euler_loop (base_step alpha beta gamma (t1 - t0)) init
          (rest.length + 1) = traj := by
        simpa [base_seir_model] using htraj
      subst heq
      rw [euler_loop_get, euler_loop_get]
      rw [total_iterate _ (total_base_step alpha beta gamma (t1 - t0)),
        total_iterate _ (total_base_step alpha beta gamma (t1 - t0))]
  · intro traj htraj i h h0
    match t, htraj with
    | t0 :: t1 :: rest, htraj =>
      have heq : euler_loop (sd_step alpha beta gamma rho (t1 - t0)) init
          (rest.length + 1) = traj := by
        simpa [social_distancing_seir_model] using htraj
      subst heq
      rw [euler_loop_get, euler_loop_get]
      rw [total_iterate _ (total_sd_step alpha beta gamma rho (t1 - t0)),
        total_iterate _ (total_sd_step alpha beta gamma rho (t1 - t0))]

theorem claim_C2_witness :
    total (([⟨1, 0, 1, 0⟩, ⟨0, 1, 1, 0⟩] : List SEIRState).get ⟨1, by decide⟩) =
      total (([⟨1, 0, 1, 0⟩, ⟨0, 1, 1, 0⟩] : List SEIRState).get ⟨0, by decide⟩) :=
  (claim_C2 ⟨1, 0, 1, 0⟩ 0 1 0 1 [0, 1]).1 [⟨1, 0, 1, 0⟩, ⟨0, 1, 1, 0⟩]
    (by simp [base_seir_model, euler_loop, base_step]) 1 (by decide) (by decide)

/-- Claim C3: whenever either model returns a trajectory, its length equals
the length of the time grid. -/
theorem claim_C3 (init : SEIRState) (alpha beta gamma rho : ℚ) (t : List ℚ) :
    (∀ traj, base_seir_model init (alpha, beta, gamma) t = some traj →
      traj.length = t.length)
    ∧ (∀ traj, social_distancing_seir_model init (alpha, beta, gamma, rho) t =
        some traj →
      traj.length = t.length) := by
  constructor
  · intro traj htraj
    match t, htraj with
    | t0 :: t1 :: rest, htraj =>
      have heq : euler_loop (base_step alpha beta gamma (t1 - t0)) init
          (rest.length + 1) = traj := by
        simpa [base_seir_model] using htraj
      rw [← heq, euler_loop_length]
      simp
  · intro traj htraj
    match t, htraj with
    | t0 :: t1 :: rest, htraj =>
      have heq : euler_loop (sd_step alpha beta gamma rho (t1 - t0)) init
          (rest.length + 1) = traj := by
        simpa [social_distancing_seir_model] using htraj
      rw [← heq, euler_loop_length]
      simp

theorem claim_C3_witness :
    ([⟨1, 0, 1, 0⟩, ⟨0, 1, 1, 0⟩] : List SEIRState).length =
      ([0, 1] : List ℚ).length :=
  (claim_C3 ⟨1, 0, 1, 0⟩ 0 1 0 1 [0, 1]).1 [⟨1, 0, 1, 0⟩, ⟨0, 1, 1, 0⟩]
    (by simp [base_seir_model, euler_loop, base_step])

/-- Claim C4: whenever either model returns a trajectory, its element 0 is
the supplied initial state, exactly. -/
theorem claim_C4 (init : SEIRState) (alpha beta gamma rho : ℚ) (t : List ℚ) :
    (∀ traj, base_seir_model init (alpha, beta, gamma) t = some traj →
      ∀ h0 : 0 < traj.length, traj.get ⟨0, h0⟩ = init)
    ∧ (∀ traj, social_distancing_seir_model init (alpha, beta, gamma, rho) t =
        some traj →
      ∀ h0 : 0 < traj.length, traj.get ⟨0, h0⟩ = init) := by
  constructor
  · intro traj htraj h0
    match t, htraj with
    | t0 :: t1 :: rest, htraj =>
      have heq : euler_loop (base_step alpha beta gamma (t1 - t0)) init
          (rest.length + 1) = traj := by
        simpa [base_seir_model] using htraj
      subst heq
      exact euler_loop_get_zero _ _ _ h0
  · intro traj htraj h0
    match t, htraj with
    | t0 :: t1 :: rest, htraj =>
      have heq : euler_loop (sd_step alpha beta gamma rho (t1 - t0)) init
          (rest.length + 1) = traj := by
        simpa [social_distancing_seir_model] using htraj
      subst heq
      exact euler_loop_get_zero _ _ _ h0

theorem claim_C4_witness :
    ([⟨1, 0, 1, 0⟩, ⟨0, 1, 1, 0⟩] : List SEIRState).get ⟨0, by decide⟩ =
      (⟨1, 0, 1, 0⟩ : SEIRState) :=
  (claim_C4 ⟨1, 0, 1, 0⟩ 0 1 0 1 [0, 1]).1 [⟨1, 0, 1, 0⟩, ⟨0, 1, 1, 0⟩]
    (by simp [base_seir_model, euler_loop, base_step]) (by decide)

/-- Claim C5: for every initial state, alpha, beta, gamma and time grid,
the SocialDistancing model with `rho = 1` returns exactly what the Base
model returns. -/
theorem claim_C5 (init : SEIRState) (alpha beta gamma : ℚ) (t : List ℚ) :
    social_distancing_seir_model init (alpha, beta, gamma, 1) t =
      base_seir_model init (alpha, beta, gamma) t := by
  cases t with
  | nil => rfl
  | cons t0 t =>
    cases t with
    | nil => rfl
    | cons t1 rest =>
      simp only [social_distancing_seir_model, base_seir_model, sd_step_one]

/-- Claim C6: with `rho = 0`, the S compartment never changes (it equals the
initial S at every index), and E, I, R follow the Euler recurrence with the
transmission term fixed at 0: `E' = E - alpha*E*dt`,
`I' = I + (alpha*E - gamma*I)*dt`, `R' = R + gamma*I*dt`. -/
theorem claim_C6 (init : SEIRState) (alpha beta gamma t0 t1 : ℚ)
    (rest : List ℚ) :
    ∀ traj, social_distancing_seir_model init (alpha, beta, gamma, 0)
        (t0 :: t1 :: rest) = some traj →
      (∀ i, (h : i < traj.length) → (h0 : 0 < traj.length) →
        (traj.get ⟨i, h⟩).S = (traj.get ⟨0, h0⟩).S)
      ∧ (∀ i, (h : i + 1 < traj.length) → (h' : i < traj.length) →
        (traj.get ⟨i + 1, h⟩).E =
            (traj.get ⟨i, h'⟩).E - alpha * (traj.get ⟨i, h'⟩).E * (t1 - t0)
          ∧ (traj.get ⟨i + 1, h⟩).I =
            (traj.get ⟨i, h'⟩).I +
              (alpha * (traj.get ⟨i, h'⟩).E - gamma * (traj.get ⟨i, h'⟩).I) *
                (t1 - t0)
          ∧ (traj.get ⟨i + 1, h⟩).R =
            (traj.get ⟨i, h'⟩).R + gamma * (traj.get ⟨i, h'⟩).I * (t1 - t0)) := by
  intro traj htraj
  have heq : euler_loop (sd_step alpha beta gamma 0 (t1 - t0)) init
      (rest.length + 1) = traj := by
    simpa [social_distancing_seir_model] using htraj
  subst heq
  have hS : ∀ p, (sd_step alpha beta gamma 0 (t1 - t0) p).S = p.S := by
    intro p
    simp [sd_step]
  constructor
  · intro i h h0
    rw [euler_loop_get, euler_loop_get, iterate_S_const _ hS]
    rfl
  · intro i h h'
    rw [euler_loop_get_succ _ _ _ _ h h']
    refine ⟨?_, ?_, ?_⟩
    · simp only [sd_step]
      ring
    · simp only [sd_step]
    · simp only [sd_step]

theorem claim_C6_witness :
    (([⟨1, 1, 1, 0⟩, ⟨1, 0, 1, 1⟩] : List SEIRState).get ⟨1, by decide⟩).S =
      (([⟨1, 1, 1, 0⟩, ⟨1, 0, 1, 1⟩] : List SEIRState).get ⟨0, by decide⟩).S :=
  ((claim_C6 ⟨1, 1, 1, 0⟩ 1 1 1 0 1 []) [⟨1, 1, 1, 0⟩, ⟨1, 0, 1, 1⟩]
    (by simp [social_distancing_seir_model, euler_loop, sd_step])).1
    1 (by decide) (by decide)

/-- Claim C9: for every initial state, parameters and time grid, the
SocialDistancing model with factor `rho` returns exactly what the Base model
returns when its contact rate is pre-scaled to `rho * beta`. -/
theorem claim_C9 (init : SEIRState) (alpha beta gamma rho : ℚ) (t : List ℚ) :
    social_distancing_seir_model init (alpha, beta, gamma, rho) t =
      base_seir_model init (alpha, rho * beta, gamma) t := by
  cases t with
  | nil => rfl
  | cons t0 t =>
    cases t with
    | nil => rfl
    | cons t1 rest => rfl

theorem base_step_S_le (alpha beta gamma dt : ℚ) (p : SEIRState)
    (hbeta : 0 ≤ beta) (hS : 0 ≤ p.S) (hI : 0 ≤ p.I) (hdt : 0 ≤ dt) :
    (base_step alpha beta gamma dt p).S ≤ p.S := by
  have hterm : 0 ≤ beta * p.S * p.I * dt :=
    mul_nonneg (mul_nonneg (mul_nonneg hbeta hS) hI) hdt
  simp only [base_step]
  linarith

theorem sd_step_S_le (alpha beta gamma rho dt : ℚ) (p : SEIRState)
    (hrho : 0 ≤ rho) (hbeta : 0 ≤ beta) (hS : 0 ≤ p.S) (hI : 0 ≤ p.I)
    (hdt : 0 ≤ dt) : (sd_step alpha beta gamma rho dt p).S ≤ p.S := by
  have hterm : 0 ≤ rho * beta * p.S * p.I * dt :=
    mul_nonneg (mul_nonneg (mul_nonneg (mul_nonneg hrho hbeta) hS) hI) hdt
  simp only [sd_step]
  linarith

/-- Claim C7: on a nondecreasing grid (the spec's TimeGrid is strictly
increasing, so `t0 ≤ t1`), when `rho ≥ 0`, `beta ≥ 0` and every state of the
produced trajectory has `S ≥ 0` and `I ≥ 0`, the S compartment is
non-increasing step over step, for both policy variants. -/
theorem claim_C7 (init : SEIRState) (alpha beta gamma rho t0 t1 : ℚ)
    (rest : List ℚ) (hrho : 0 ≤ rho) (hbeta : 0 ≤ beta) (hdt : t0 ≤ t1) :
    (∀ traj, base_seir_model init (alpha, beta, gamma) (t0 :: t1 :: rest) =
        some traj →
      (∀ p ∈ traj, 0 ≤ p.S ∧ 0 ≤ p.I) →
      ∀ i, (h : i + 1 < traj.length) → (h' : i < traj.length) →
        (traj.get ⟨i + 1, h⟩).S ≤ (traj.get ⟨i, h'⟩).S)
    ∧ (∀ traj, social_distancing_seir_model init (alpha, beta, gamma, rho)
        (t0 :: t1 :: rest) = some traj →
      (∀ p ∈ traj, 0 ≤ p.S ∧ 0 ≤ p.I) →
      ∀ i, (h : i + 1 < traj.length) → (h' : i < traj.length) →
        (traj.get ⟨i + 1, h⟩).S ≤ (traj.get ⟨i, h'⟩).S) := by
  constructor
  · intro traj htraj hpos i h h'
    have heq : euler_loop (base_step alpha beta gamma (t1 - t0)) init
        (rest.length + 1) = traj := by
      simpa [base_seir_model] using htraj
    subst heq
    rw [euler_loop_get_succ _ _ _ _ h h']
    have hp := hpos _ (List.get_mem _ i h')
    exact base_step_S_le _ _ _ _ _ hbeta hp.1 hp.2 (by linarith)
  · intro traj htraj hpos i h h'
    have heq : euler_loop (sd_step alpha beta gamma rho (t1 - t0)) init
        (rest.length + 1) = traj := by
      simpa [social_distancing_seir_model] using htraj
    subst heq
    rw [euler_loop_get_succ _ _ _ _ h h']
    have hp := hpos _ (List.get_mem _ i h')
    exact sd_step_S_le _ _ _ _ _ _ hrho hbeta hp.1 hp.2 (by linarith)

theorem claim_C7_witness :
    (([⟨1, 0, 1, 0⟩, ⟨0, 1, 1, 0⟩] : List SEIRState).get ⟨1, by decide⟩).S ≤
      (([⟨1, 0, 1, 0⟩, ⟨0, 1, 1, 0⟩] : List SEIRState).get ⟨0, by decide⟩).S :=
  (claim_C7 ⟨1, 0, 1, 0⟩ 0 1 0 1 0 1 [] zero_le_one zero_le_one
      zero_le_one).1 [⟨1, 0, 1, 0⟩, ⟨0, 1, 1, 0⟩]
    (by simp [base_seir_model, euler_loop, base_step]) (by simp)
    0 (by decide) (by decide)

/-- Claim C8 counterexample: on the one-point grid `[0]`, both source
functions hit the out-of-range read `t[1]` while computing `dt` and raise
(modelled as `none`); no length-1 trajectory `[init]` is returned. -/
theorem claim_C8_counterexample :
    base_seir_model ⟨1, 0, 0, 0⟩ (1, 1, 1) [0] = none ∧
      base_seir_model ⟨1, 0, 0, 0⟩ (1, 1, 1) [0] ≠ some [⟨1, 0, 0, 0⟩] ∧
      social_distancing_seir_model ⟨1, 0, 0, 0⟩ (1, 1, 1, 1) [0] = none :=
  ⟨rfl, by decide, rfl⟩

/-- Claim C8 (amended): a time grid with fewer than two points makes both
model functions fail at `dt = t[1] - t[0]` (an out-of-range index read,
modelled as `none`); no trajectory at all is produced.  The source contains
no InvalidTimeGrid validation. -/
theorem claim_C8 (init : SEIRState) (params3 : ℚ × ℚ × ℚ)
    (params4 : ℚ × ℚ × ℚ × ℚ) (t : List ℚ) (h : t.length < 2) :
    base_seir_model init params3 t = none ∧
      social_distancing_seir_model init params4 t = none := by
  match t with
  | [] => exact ⟨rfl, rfl⟩
  | [x] => exact ⟨rfl, rfl⟩
  | x :: y :: rest => exact absurd h (by simp)

theorem claim_C8_witness :
    base_seir_model ⟨1, 0, 0, 0⟩ (1, 1, 1) [] = none ∧
      social_distancing_seir_model ⟨1, 0, 0, 0⟩ (1, 1, 1, 1) [] = none :=
  claim_C8 ⟨1, 0, 0, 0⟩ (1, 1, 1) (1, 1, 1, 1) [] (by decide)

/-- Claim C10: both models read the time grid only through its length and
the spacing `t[1] - t[0]`: two grids of equal length (at least 2) and equal
first spacing produce identical outputs, whatever the remaining points
are. -/
theorem claim_C10 (init : SEIRState) (alpha beta gamma rho t0 t1 u0 u1 : ℚ)
    (rest rest' : List ℚ) (hlen : rest.length = rest'.length)
    (hdt : t1 - t0 = u1 - u0) :
    base_seir_model init (alpha, beta, gamma) (t0 :: t1 :: rest) =
      base_seir_model init (alpha, beta, gamma) (u0 :: u1 :: rest')
    ∧ social_distancing_seir_model init (alpha, beta, gamma, rho)
        (t0 :: t1 :: rest) =
      social_distancing_seir_model init (alpha, beta, gamma, rho)
        (u0 :: u1 :: rest') := by
  constructor
  · simp only [base_seir_model, hlen, hdt]
  · simp only [social_distancing_seir_model, hlen, hdt]

theorem claim_C10_witness :
    base_seir_model ⟨1, 0, 1, 0⟩ (0, 1, 0) [0, 1] =
      base_seir_model ⟨1, 0, 1, 0⟩ (0, 1, 0) [10, 11]
    ∧ social_distancing_seir_model ⟨1, 0, 1, 0⟩ (0, 1, 0, 1) [0, 1] =
      social_distancing_seir_model ⟨1, 0, 1, 0⟩ (0, 1, 0, 1) [10, 11] :=
  claim_C10 ⟨1, 0, 1, 0⟩ 0 1 0 1 0 1 10 11 [] [] rfl (by norm_num)
